/-
Verification of the sqlite-mcp-server core (database.py, server.py):
the Query Guard string classifier, the Store Adapter operations
(execute_query, get_table_data, create_sample_data), and the server
handlers (list_resources, call_tool) are embedded as Lean functions,
with the external SQLite engine abstracted as a state-passing oracle.
-/
import Mathlib

namespace SqliteMcp

/-! ## String primitives (Python `str` operations, ASCII-accurate) -/

/-- Whitespace stripped by Python `str.strip()` (ASCII range):
space, tab, newline, carriage return, vertical tab, form feed. -/
def pyWS (c : Char) : Bool :=
  c == ' ' || c == '\t' || c == '\n' || c == '\r' ||
  c == Char.ofNat 11 || c == Char.ofNat 12

/-- Python `s.strip()`: drop leading and trailing whitespace. -/
def pyStrip (s : String) : String :=
  ⟨((s.data.dropWhile pyWS).reverse.dropWhile pyWS).reverse⟩

/-- Python `s.upper()`; `Char.toUpper` agrees with Python on ASCII,
and every string the guard compares against is ASCII. -/
def pyUpper (s : String) : String :=
  ⟨s.data.map Char.toUpper⟩

/-- Python `s.startswith(p)`: character-prefix test. -/
def pyStartsWith (s p : String) : Bool :=
  p.data.isPrefixOf s.data

/-- Contiguous-sublist test on character lists, scanning left to right. -/
def containsSub (hay pat : List Char) : Bool :=
  match hay with
  | [] => pat.isEmpty
  | _ :: t => pat.isPrefixOf hay || containsSub t pat

/-- Python `pat in s` for strings: substring containment. -/
def containsSubstr (s pat : String) : Bool :=
  containsSub s.data pat.data

/-- Python `s.replace(c, '')`: remove every occurrence of one character. -/
def pyRemoveAll (s : String) (c : Char) : String :=
  ⟨s.data.filter (fun x => x != c)⟩

/-- Python `s.isalnum()`: nonempty and every character alphanumeric.
`Char.isAlphanum` agrees with Python on ASCII characters; the theorems
that depend on this definition restrict the name to ASCII. -/
def pyIsAlnum (s : String) : Bool :=
  !s.data.isEmpty && s.data.all Char.isAlphanum

/-! ## Data model -/

/-- One result row: column name to value, column order preserved. -/
def Row : Type := List (String × String)

instance : DecidableEq Row := by unfold Row; infer_instance

/-- Column metadata as produced by `get_schema` (PRAGMA table_info). -/
structure ColumnInfo where
  name : String
  type : String
  not_null : Bool
  default_value : Option String
  primary_key : Bool
deriving DecidableEq, Repr

/-- One table's schema entry: name, raw CREATE statement, columns. -/
structure TableSchema where
  name : String
  sql : String
  columns : List ColumnInfo
deriving DecidableEq, Repr

/-- The external SQLite engine, out of scope of the core, abstracted as
a state-passing oracle over an arbitrary state type `σ`:
`run` executes an (already guard-approved) SQL string with bound
parameters, `schema` reads the schema (a read-only query on
sqlite_master, hence state-preserving), `seed` is the raw storage
effect behind `create_sample_data`.  `Except.error` models a raised
exception. -/
structure Store (σ : Type) where
  run : σ → String → List Int → σ × Except String (List Row)
  schema : σ → Except String (List TableSchema)
  seed : σ → σ × Except String Unit

/-! ## Query Guard and Store Adapter (database.py) -/

/-- The working copy the guard matches on: `query.strip().upper()`
(database.py line 91). -/
def query_stripped (query : String) : String :=
  pyUpper (pyStrip query)

/-- `dangerous_patterns` (database.py line 96), in source order. -/
def dangerous_patterns : List String :=
  ["DROP", "DELETE", "UPDATE", "INSERT", "ALTER", "CREATE"]

/-- Guard outcome: SAFE, or rejected with the raised message. -/
inductive Classification where
  | safe : Classification
  | rejected : String → Classification
deriving DecidableEq, Repr

/-- The Query Guard: the safety checks of `execute_query`
(database.py lines 90-99).  The prefix check uses Python
`startswith`; the pattern scan takes the first pattern of
`dangerous_patterns` (in list order) occurring as a substring. -/
def classify (query : String) : Classification :=
  if !(pyStartsWith (query_stripped query) "SELECT") then
    Classification.rejected "Only SELECT queries are allowed for safety"
  else
    match dangerous_patterns.find? (fun p => containsSubstr (query_stripped query) p) with
    | some p => Classification.rejected ("Query contains dangerous pattern: " ++ p)
    | none => Classification.safe

/-- `SQLiteDatabase.execute_query` (database.py lines 77-106): run the
guard; on rejection raise (state unchanged, no connection opened); on
SAFE open a connection and execute the original query string with
`params or ()`. -/
def execute_query {σ : Type} (st : Store σ) (s : σ) (query : String)
    (params : Option (List Int)) : σ × Except String (List Row) :=
  match classify query with
  | Classification.rejected r => (s, Except.error r)
  | Classification.safe => st.run s query (params.getD [])

/-- The identifier check of `get_table_data` (database.py line 119):
`table_name.replace('_', '').replace('-', '').isalnum()`. -/
def validTableName (table_name : String) : Bool :=
  pyIsAlnum (pyRemoveAll (pyRemoveAll table_name '_') '-')

/-- `SQLiteDatabase.get_table_data` (database.py lines 108-123):
validate the identifier, then build the fixed-shape query and pass it
through `execute_query` with the limit as a bound parameter. -/
def get_table_data {σ : Type} (st : Store σ) (s : σ) (table_name : String)
    (limit : Int) : σ × Except String (List Row) :=
  if !(validTableName table_name) then
    (s, Except.error "Invalid table name")
  else
    execute_query st s ("SELECT * FROM " ++ table_name ++ " LIMIT ?") (some [limit])

/-! ## Sample-data seeding (database.py lines 125-171)

`create_sample_data` is modelled concretely: it interprets the two
CREATE TABLE IF NOT EXISTS statements and the two INSERT OR IGNORE
batches against an explicit table state.  The `users` table declares
`email TEXT UNIQUE`, so INSERT OR IGNORE skips a row whose email is
already present; the `products` table declares no UNIQUE column (its
only constraint is the autogenerated `id` primary key, which never
collides), so INSERT OR IGNORE there never ignores anything. -/

/-- A row of the sample `users` table (id autoincrement omitted:
no inserted value can collide on it). -/
structure UserRow where
  name : String
  email : String
  age : Int
deriving DecidableEq, Repr

/-- A row of the sample `products` table.  The REAL price literal is
kept as opaque text: its numeric value is immaterial to row counts. -/
structure ProductRow where
  name : String
  price : String
  category : String
  in_stock : Bool
deriving DecidableEq, Repr

/-- Storage state relevant to seeding: `none` = table absent. -/
structure SampleDB where
  users : Option (List UserRow)
  products : Option (List ProductRow)
deriving DecidableEq, Repr

/-- INSERT OR IGNORE into `users`: email is UNIQUE, so a duplicate
email is ignored. -/
def insertOrIgnoreUser (t : List UserRow) (r : UserRow) : List UserRow :=
  if t.any (fun u => u.email == r.email) then t else t ++ [r]

/-- INSERT OR IGNORE into `products`: no UNIQUE column exists, so the
row is always appended. -/
def insertOrIgnoreProduct (t : List ProductRow) (r : ProductRow) : List ProductRow :=
  t ++ [r]

/-- The fixed users batch (database.py lines 154-159). -/
def sampleUsers : List UserRow :=
  [⟨"John Doe", "john@example.com", 30⟩,
   ⟨"Jane Smith", "jane@example.com", 25⟩,
   ⟨"Bob Johnson", "bob@example.com", 35⟩,
   ⟨"Alice Brown", "alice@example.com", 28⟩]

/-- The fixed products batch (database.py lines 163-169). -/
def sampleProducts : List ProductRow :=
  [⟨"Laptop", "999.99", "Electronics", true⟩,
   ⟨"Mouse", "29.99", "Electronics", true⟩,
   ⟨"Keyboard", "79.99", "Electronics", false⟩,
   ⟨"Desk Chair", "199.99", "Furniture", true⟩,
   ⟨"Monitor", "299.99", "Electronics", true⟩]

/-- `SQLiteDatabase.create_sample_data`: CREATE TABLE IF NOT EXISTS for
both tables, then the two INSERT OR IGNORE batches. -/
def create_sample_data (db : SampleDB) : SampleDB :=
  let users0 := db.users.getD []
  let products0 := db.products.getD []
  { users := some (sampleUsers.foldl insertOrIgnoreUser users0),
    products := some (sampleProducts.foldl insertOrIgnoreProduct products0) }

/-- A freshly initialised database file: no tables. -/
def emptyDB : SampleDB := { users := none, products := none }

/-- Row count of the `users` table (0 when absent). -/
def userCount (db : SampleDB) : Nat := (db.users.getD []).length

/-- Row count of the `products` table (0 when absent). -/
def productCount (db : SampleDB) : Nat := (db.products.getD []).length

/-! ## Server handlers (server.py) -/

/-- An MCP resource descriptor (server.py lines 51-71). -/
structure Resource where
  uri : String
  name : String
  description : String
  mimeType : String
deriving DecidableEq, Repr

/-- The whole-schema resource appended unconditionally
(server.py lines 51-58). -/
def schemaResource : Resource :=
  { uri := "sqlite://schema",
    name := "Database Schema",
    description := "Complete database schema with table definitions",
    mimeType := "application/json" }

/-- The per-table resource (server.py lines 64-71). -/
def tableResource (n : String) : Resource :=
  { uri := "sqlite://table/" ++ n,
    name := "Table: " ++ n,
    description := "Data from the " ++ n ++ " table",
    mimeType := "application/json" }

/-- `list_resources` (server.py lines 45-75): the schema resource, then
one resource per discovered table; a schema failure is caught and
logged, leaving only the schema resource. -/
def list_resources {σ : Type} (st : Store σ) (s : σ) : List Resource :=
  match st.schema s with
  | Except.ok schema => schemaResource :: schema.map (fun t => tableResource t.name)
  | Except.error _ => [schemaResource]

/-- The `arguments` mapping of a tool call, restricted to the keys the
handlers read.  `none` = key absent. -/
structure ToolArgs where
  query : Option String
  table_name : Option String
  limit : Option Int
deriving DecidableEq, Repr

/-- Stands for `json.dumps(results, ...)`: the exact text is immaterial
to every claim. -/
def renderRows (rs : List Row) : String :=
  String.intercalate "; " (rs.map (fun r =>
    String.intercalate ", " (r.map (fun kv => kv.1 ++ "=" ++ kv.2))))

/-- Stands for `json.dumps(table_schema, ...)`. -/
def renderTableSchema (t : TableSchema) : String :=
  t.name ++ ": " ++ t.sql

/-- Stands for `json.dumps(table_names, ...)`. -/
def renderNames (ns : List String) : String :=
  String.intercalate ", " ns

/-- A single-quote character, for reproducing the Python error text
`Table '<name>' not found`. -/
def sq : String := String.singleton (Char.ofNat 39)

/-- The body of the `try:` block of `call_tool` (server.py lines
171-241); `Except.error` is a raised exception carrying its message. -/
def call_tool_body {σ : Type} (st : Store σ) (s : σ) (name : String)
    (args : ToolArgs) : σ × Except String (List String) :=
  if name == "execute_query" then
    let query := args.query.getD ""
    if query == "" then (s, Except.error "Query is required")
    else
      match execute_query st s query none with
      | (s2, Except.ok results) => (s2, Except.ok [renderRows results])
      | (s2, Except.error e) => (s2, Except.error e)
  else if name == "get_table_schema" then
    let table_name := args.table_name.getD ""
    if table_name == "" then (s, Except.error "Table name is required")
    else
      match st.schema s with
      | Except.ok schema =>
        match schema.find? (fun t => t.name == table_name) with
        | some t => (s, Except.ok [renderTableSchema t])
        | none => (s, Except.error ("Table " ++ sq ++ table_name ++ sq ++ " not found"))
      | Except.error e => (s, Except.error e)
  else if name == "list_tables" then
    match st.schema s with
    | Except.ok schema => (s, Except.ok [renderNames (schema.map (fun t => t.name))])
    | Except.error e => (s, Except.error e)
  else if name == "get_table_data" then
    let table_name := args.table_name.getD ""
    let limit := args.limit.getD 100
    if table_name == "" then (s, Except.error "Table name is required")
    else
      match get_table_data st s table_name limit with
      | (s2, Except.ok data) => (s2, Except.ok [renderRows data])
      | (s2, Except.error e) => (s2, Except.error e)
  else if name == "create_sample_data" then
    match st.seed s with
    | (s2, Except.ok _) => (s2, Except.ok ["Sample data created successfully"])
    | (s2, Except.error e) => (s2, Except.error e)
  else (s, Except.error ("Unknown tool: " ++ name))

/-- `call_tool` (server.py lines 168-250): the `try`/`except` wrapper
turning any raised failure into a single error content block
`Error: <message>`. -/
def call_tool {σ : Type} (st : Store σ) (s : σ) (name : String)
    (args : ToolArgs) : σ × List String :=
  match call_tool_body st s name args with
  | (s2, Except.ok ts) => (s2, ts)
  | (s2, Except.error e) => (s2, ["Error: " ++ e])

/-! ## Concrete stores used as test harnesses in witnesses -/

/-- A trivial storage engine: every query returns no rows. -/
def unitStore : Store Unit :=
  { run := fun s _ _ => (s, Except.ok []),
    schema := fun _ => Except.ok [],
    seed := fun s => (s, Except.ok ()) }

/-- A probing engine over `Bool` state: the state flips to `true`
exactly when storage is touched by `run`. -/
def probeStore : Store Bool :=
  { run := fun _ _ _ => (true, Except.ok []),
    schema := fun _ => Except.ok [],
    seed := fun s => (s, Except.ok ()) }

/-- A recording engine: the state remembers the exact SQL string
handed to storage. -/
def recStore : Store (Option String) :=
  { run := fun _ q _ => (some q, Except.ok []),
    schema := fun _ => Except.ok [],
    seed := fun s => (s, Except.ok ()) }

/-- An engine whose schema discovery always fails. -/
def errStore : Store Unit :=
  { run := fun s _ _ => (s, Except.ok []),
    schema := fun _ => Except.error "database is locked",
    seed := fun s => (s, Except.ok ()) }

/-! ## Helper lemmas on lists and the string primitives -/

lemma any_find?_some {α : Type} (p : α → Bool) (l : List α) (h : l.any p = true) :
    ∃ a, l.find? p = some a := by
  induction l with
  | nil => simp at h
  | cons x xs ih =>
    cases hx : p x with
    | true => exact ⟨x, List.find?_cons_of_pos _ hx⟩
    | false =>
      have h2 : xs.any p = true := by simpa [List.any_cons, hx] using h
      obtain ⟨a, ha⟩ := ih h2
      exact ⟨a, by rw [List.find?_cons_of_neg _ (by simp [hx]), ha]⟩

lemma find?_some_split {α : Type} (p : α → Bool) (l : List α) (a : α)
    (h : l.find? p = some a) :
    ∃ pre suf, l = pre ++ a :: suf ∧ (∀ x ∈ pre, p x = false) ∧ p a = true := by
  induction l with
  | nil => simp [List.find?] at h
  | cons x xs ih =>
    cases hx : p x with
    | true =>
      rw [List.find?_cons_of_pos _ hx] at h
      obtain rfl : x = a := by injection h
      exact ⟨[], xs, rfl, by simp, hx⟩
    | false =>
      rw [List.find?_cons_of_neg _ (by simp [hx])] at h
      obtain ⟨pre, suf, hl, hpre, hpa⟩ := ih h
      refine ⟨x :: pre, suf, by rw [hl]; rfl, ?_, hpa⟩
      intro y hy
      rcases List.mem_cons.mp hy with rfl | hy
      · exact hx
      · exact hpre y hy

lemma isPrefixOf_append {α : Type} [BEq α] (p : List α) :
    ∀ s t : List α, p.isPrefixOf s = true → p.isPrefixOf (s ++ t) = true := by
  induction p with
  | nil => intro s t _; simp [List.isPrefixOf]
  | cons a as ih =>
    intro s t h
    cases s with
    | nil => simp [List.isPrefixOf] at h
    | cons b bs =>
      simp only [List.isPrefixOf, Bool.and_eq_true, List.cons_append] at h ⊢
      exact ⟨h.1, ih bs t h.2⟩

lemma isPrefixOf_map (f : Char → Char) (p : List Char) :
    ∀ s : List Char, p.isPrefixOf s = true → (p.map f).isPrefixOf (s.map f) = true := by
  induction p with
  | nil => intro s _; simp [List.isPrefixOf]
  | cons a as ih =>
    intro s h
    cases s with
    | nil => simp [List.isPrefixOf] at h
    | cons b bs =>
      simp only [List.isPrefixOf, Bool.and_eq_true, List.map_cons] at h ⊢
      obtain rfl : a = b := beq_iff_eq.mp h.1
      exact ⟨beq_iff_eq.mpr rfl, ih bs h.2⟩

lemma containsSub_nil_pat (hay : List Char) : containsSub hay [] = true := by
  cases hay with
  | nil => rfl
  | cons a t => simp [containsSub, List.isPrefixOf]

lemma containsSub_of_isPrefixOf (hay pat : List Char) (h : pat.isPrefixOf hay = true) :
    containsSub hay pat = true := by
  cases hay with
  | nil =>
    cases pat with
    | nil => rfl
    | cons a t => simp [List.isPrefixOf] at h
  | cons a t => simp [containsSub, h]

lemma containsSub_append_left (h t pat : List Char) (hc : containsSub t pat = true) :
    containsSub (h ++ t) pat = true := by
  induction h with
  | nil => simpa using hc
  | cons a h' ih => simp [containsSub, ih]

lemma containsSub_append_right (s : List Char) (t pat : List Char)
    (hc : containsSub s pat = true) : containsSub (s ++ t) pat = true := by
  induction s with
  | nil =>
    have : pat = [] := List.isEmpty_iff.mp (by simpa [containsSub] using hc)
    subst this
    exact containsSub_nil_pat t
  | cons a s' ih =>
    simp only [containsSub, Bool.or_eq_true] at hc
    rcases hc with hc | hc
    · have := isPrefixOf_append pat (a :: s') t hc
      simp only [List.cons_append] at this ⊢
      simp [containsSub, this]
    · simp only [List.cons_append]
      simp [containsSub, ih hc]

lemma containsSub_mid (l1 mid l2 pat : List Char) (h : containsSub mid pat = true) :
    containsSub (l1 ++ mid ++ l2) pat = true := by
  have h1 := containsSub_append_right mid l2 pat h
  have h2 := containsSub_append_left l1 (mid ++ l2) pat h1
  simpa [List.append_assoc] using h2

lemma containsSub_map (f : Char → Char) (s pat : List Char) (h : containsSub s pat = true) :
    containsSub (s.map f) (pat.map f) = true := by
  induction s with
  | nil =>
    have hp : pat = [] := List.isEmpty_iff.mp (by simpa [containsSub] using h)
    subst hp
    rfl
  | cons a s' ih =>
    simp only [containsSub, Bool.or_eq_true] at h
    rcases h with h | h
    · have hm := isPrefixOf_map f pat (a :: s') h
      simp only [List.map_cons] at hm
      simp [containsSub, hm]
    · simp [containsSub, List.map_cons, ih h]

lemma dropWhile_eq_self_of_head {α : Type} (p : α → Bool) (l : List α)
    (h : ∀ c ∈ l.head?, p c = false) : l.dropWhile p = l := by
  cases l with
  | nil => rfl
  | cons a t =>
    have ha : p a = false := h a (by simp)
    simp [List.dropWhile_cons, ha]

/-- A string whose first and last characters are not whitespace is left
unchanged by `strip()`. -/
lemma pyStrip_eq_self (s : String) (h1 : ∀ c ∈ s.data.head?, pyWS c = false)
    (h2 : ∀ c ∈ s.data.reverse.head?, pyWS c = false) : pyStrip s = s := by
  unfold pyStrip
  rw [dropWhile_eq_self_of_head _ _ h1, dropWhile_eq_self_of_head _ _ h2,
    List.reverse_reverse]

/-! ## Claim theorems -/

/-- Claim-side reading of C2 (follows the claim's words, not the
source): the working copy "starts with the token SELECT" when the
prefix SELECT is followed by nothing or by a non-identifier
character. -/
def startsWithTokenSELECT (s : String) : Bool :=
  pyStartsWith s "SELECT" &&
  (match s.data.drop 6 with
   | [] => true
   | c :: _ => !(c.isAlphanum || c == '_'))

/-- C2 counterexample: the query `selection`, whose working copy
`SELECTION` does not start with the token SELECT, is nevertheless
classified SAFE and executed against storage (the probing store's
state flips to true), instead of being rejected as not-a-select. -/
theorem not_select_token_cex :
    startsWithTokenSELECT (query_stripped "selection") = false ∧
    classify "selection" = Classification.safe ∧
    execute_query probeStore false "selection" none = (true, Except.ok []) :=
  ⟨by decide, by decide, rfl⟩

/-- C2 (amended): every query whose trimmed, case-folded working copy
does not start with the character prefix SELECT is rejected with the
not-a-select reason, with the state unchanged and independently of the
storage engine. -/
theorem execute_query_rejects_non_select_prefix {σ : Type} (st : Store σ) (s : σ)
    (q : String) (ps : Option (List Int))
    (h : pyStartsWith (query_stripped q) "SELECT" = false) :
    execute_query st s q ps = (s, Except.error "Only SELECT queries are allowed for safety") := by
  unfold execute_query classify
  rw [h]
  rfl

/-- Witness for C2's amended theorem at the query `DROP TABLE users`
on the probing store: rejected, state still false (storage
untouched). -/
theorem execute_query_rejects_non_select_prefix_witness :
    pyStartsWith (query_stripped "DROP TABLE users") "SELECT" = false ∧
    execute_query probeStore false "DROP TABLE users" none =
      (false, Except.error "Only SELECT queries are allowed for safety") :=
  ⟨by decide,
   execute_query_rejects_non_select_prefix probeStore false "DROP TABLE users" none (by decide)⟩

/-- C4: evaluating `create_sample_data` twice from a fresh store. The
users table (UNIQUE email) stays at 4 rows, but the products table has
no UNIQUE column, so INSERT OR IGNORE appends its 5 fixed rows again:
the second call changes the products row count from 5 to 10,
contradicting the claimed idempotence. -/
theorem create_sample_data_row_counts_change :
    userCount (create_sample_data emptyDB) = 4 ∧
    userCount (create_sample_data (create_sample_data emptyDB)) = 4 ∧
    productCount (create_sample_data emptyDB) = 5 ∧
    productCount (create_sample_data (create_sample_data emptyDB)) = 10 := by
  decide

/-- C5: whenever the Query Guard rejects a query, `execute_query`
returns the validation error with the state unchanged, uniformly in
the storage engine — so storage is never consulted on the reject
path. -/
theorem execute_query_reject_untouched {σ : Type} (st : Store σ) (s : σ)
    (q r : String) (ps : Option (List Int))
    (h : classify q = Classification.rejected r) :
    execute_query st s q ps = (s, Except.error r) := by
  unfold execute_query
  rw [h]

/-- Witness for C5 at a guard-rejected query on the probing store:
the error is returned and the state is still false. -/
theorem execute_query_reject_untouched_witness :
    classify "SELECT 1; DELETE FROM t" =
      Classification.rejected "Query contains dangerous pattern: DELETE" ∧
    execute_query probeStore false "SELECT 1; DELETE FROM t" none =
      (false, Except.error "Query contains dangerous pattern: DELETE") :=
  ⟨by decide,
   execute_query_reject_untouched probeStore false "SELECT 1; DELETE FROM t"
     "Query contains dangerous pattern: DELETE" none (by decide)⟩

/-- C7: when the guard classifies a query SAFE, `execute_query` hands
storage exactly the original input string (trimming and uppercasing
touched only the working copy). -/
theorem execute_query_runs_original_string {σ : Type} (st : Store σ) (s : σ)
    (q : String) (ps : Option (List Int))
    (h : classify q = Classification.safe) :
    execute_query st s q ps = st.run s q (ps.getD []) := by
  unfold execute_query
  rw [h]

/-- Witness for C7 at the query `  select 1  ` (surrounding
whitespace, lower case) on the recording store: the string recorded by
storage is the original, untrimmed, uncased input. -/
theorem execute_query_runs_original_string_witness :
    classify "  select 1  " = Classification.safe ∧
    execute_query recStore none "  select 1  " none =
      recStore.run none "  select 1  " [] ∧
    (execute_query recStore none "  select 1  " none).1 = some "  select 1  " ∧
    "  select 1  " ≠ "SELECT 1" :=
  ⟨by decide,
   execute_query_runs_original_string recStore none "  select 1  " none (by decide),
   rfl, by decide⟩

/-- C8: the resource listing starts with the whole-schema resource in
every case; a failing schema discovery yields the schema entry alone
(the listing call never fails), an empty store yields the schema entry
and no table resources, and otherwise one table resource per
discovered table follows. -/
theorem list_resources_schema_first {σ : Type} (st : Store σ) (s : σ) :
    (list_resources st s).head? = some schemaResource ∧
    (∀ e, st.schema s = Except.error e → list_resources st s = [schemaResource]) ∧
    (st.schema s = Except.ok [] → list_resources st s = [schemaResource]) ∧
    (∀ ts, st.schema s = Except.ok ts →
      list_resources st s = schemaResource :: ts.map (fun t => tableResource t.name)) := by
  unfold list_resources
  cases h : st.schema s with
  | ok ts =>
    refine ⟨rfl, ?_, ?_, ?_⟩
    · intro e he; exact Except.noConfusion he
    · intro hts; injection hts with h2; rw [h2]; rfl
    · intro ts2 hts2; injection hts2 with h2; rw [h2]
  | error e =>
    refine ⟨rfl, ?_, ?_, ?_⟩
    · intro e2 _; rfl
    · intro hts; exact Except.noConfusion hts
    · intro ts2 hts2; exact Except.noConfusion hts2

/-- Witness for C8 on a store whose schema discovery fails: the
listing is exactly the schema resource. -/
theorem list_resources_schema_first_witness :
    errStore.schema () = Except.error "database is locked" ∧
    list_resources errStore () = [schemaResource] :=
  ⟨rfl, (list_resources_schema_first errStore ()).2.1 "database is locked" rfl⟩

/-- C10: a tool call to execute_query whose query argument is absent
or the empty string yields the error response `Error: Query is
required` with the state unchanged, uniformly in the storage engine —
the guard is never consulted and storage is never touched. -/
theorem call_tool_missing_query {σ : Type} (st : Store σ) (s : σ) (args : ToolArgs)
    (h : args.query = none ∨ args.query = some "") :
    call_tool st s "execute_query" args = (s, ["Error: Query is required"]) := by
  rcases h with h | h <;>
  · unfold call_tool call_tool_body
    rw [h]
    rfl

/-- Witness for C10 with the query argument present but empty, on the
probing store: the state stays false (storage untouched). -/
theorem call_tool_missing_query_witness :
    call_tool probeStore false "execute_query" ⟨some "", none, none⟩ =
      (false, ["Error: Query is required"]) :=
  call_tool_missing_query probeStore false ⟨some "", none, none⟩ (Or.inr rfl)

lemma call_tool_body_ok_singleton {σ : Type} (st : Store σ) (s : σ) (name : String)
    (args : ToolArgs) (s2 : σ) (ts : List String)
    (h : call_tool_body st s name args = (s2, Except.ok ts)) : ts.length = 1 := by
  simp only [call_tool_body] at h
  repeat' split at h
  all_goals
    rw [Prod.mk.injEq] at h
    obtain ⟨h1, h2⟩ := h
    first
      | exact Except.noConfusion h2
      | (injection h2 with h3; rw [← h3]; rfl)

/-- C6: the tool-call handler always produces a well-formed response of
exactly one content block, for every tool name, argument mapping,
storage engine and state; and whenever the handler body raises a
failure, the response is the error block carrying that failure's
message text — no exception escapes. -/
theorem call_tool_wellformed {σ : Type} (st : Store σ) (s : σ) (name : String)
    (args : ToolArgs) :
    ((call_tool st s name args).2).length = 1 ∧
    (∀ s2 e, call_tool_body st s name args = (s2, Except.error e) →
      call_tool st s name args = (s2, ["Error: " ++ e])) := by
  constructor
  · generalize hb : call_tool_body st s name args = P
    obtain ⟨s2, r⟩ := P
    unfold call_tool
    rw [hb]
    cases r with
    | ok ts => simpa using call_tool_body_ok_singleton st s name args s2 ts hb
    | error e => rfl
  · intro s2 e h
    unfold call_tool
    rw [h]

/-- Witness for C6 at an unknown tool name: one content block, carrying
the failure's message. -/
theorem call_tool_wellformed_witness :
    ((call_tool unitStore () "frobnicate" ⟨none, none, none⟩).2).length = 1 ∧
    call_tool unitStore () "frobnicate" ⟨none, none, none⟩ =
      ((), ["Error: " ++ "Unknown tool: frobnicate"]) :=
  ⟨(call_tool_wellformed unitStore () "frobnicate" ⟨none, none, none⟩).1,
   (call_tool_wellformed unitStore () "frobnicate" ⟨none, none, none⟩).2 ()
     "Unknown tool: frobnicate" rfl⟩

lemma filter_allowlist_key (l : List Char) :
    ((!((l.filter (fun x => x != '_')).filter (fun x => x != '-')).isEmpty) &&
      (((l.filter (fun x => x != '_')).filter (fun x => x != '-')).all Char.isAlphanum)) = true ↔
    ((∀ c ∈ l, (c.isAlphanum || c == '_' || c == '-') = true) ∧
      ∃ c ∈ l, c.isAlphanum = true) := by
  rw [List.filter_filter]
  constructor
  · intro h
    rw [Bool.and_eq_true] at h
    obtain ⟨hne, hall⟩ := h
    rw [List.all_eq_true] at hall
    have hne2 : (l.filter (fun a => (a != '-') && (a != '_'))).isEmpty = false := by
      cases hE : (l.filter (fun a => (a != '-') && (a != '_'))).isEmpty
      · rfl
      · rw [hE] at hne; exact absurd hne (by decide)
    constructor
    · intro c hc
      by_cases h1 : c = '_'
      · subst h1; decide
      · by_cases h2 : c = '-'
        · subst h2; decide
        · have hcf : c ∈ l.filter (fun a => (a != '-') && (a != '_')) :=
            List.mem_filter.mpr ⟨hc, by simp [bne_iff_ne, h1, h2]⟩
          have := hall c hcf
          simp [this]
    · obtain ⟨c, hc⟩ :=
        List.exists_mem_of_ne_nil _ (List.isEmpty_eq_false.mp hne2)
      exact ⟨c, (List.mem_filter.mp hc).1, hall c hc⟩
  · rintro ⟨hall, c, hc, hcal⟩
    rw [Bool.and_eq_true]
    have hc1 : c ≠ '_' := by intro e; subst e; exact absurd hcal (by decide)
    have hc2 : c ≠ '-' := by intro e; subst e; exact absurd hcal (by decide)
    have hcf : c ∈ l.filter (fun a => (a != '-') && (a != '_')) :=
      List.mem_filter.mpr ⟨hc, by simp [bne_iff_ne, hc1, hc2]⟩
    constructor
    · have hnn : l.filter (fun a => (a != '-') && (a != '_')) ≠ [] :=
        List.ne_nil_of_mem hcf
      simp [List.isEmpty_eq_false.mpr hnn]
    · rw [List.all_eq_true]
      intro x hx
      obtain ⟨hxl, hxf⟩ := List.mem_filter.mp hx
      rw [Bool.and_eq_true, bne_iff_ne, bne_iff_ne] at hxf
      have h2 : x.isAlphanum = true ∨ x = '_' ∨ x = '-' := by
        simpa [Bool.or_eq_true, beq_iff_eq, or_assoc] using hall x hxl
      rcases h2 with h2 | h2 | h2
      · exact h2
      · exact absurd h2 hxf.2
      · exact absurd h2 hxf.1

/-- C3 counterexample: the table name consisting of a single
underscore has every character in the claimed allow-list (ASCII
letter, digit, underscore, hyphen), yet `get_table_data` rejects it as
an invalid table name — `"_".replace('_','').isalnum()` is False
because the remainder is empty. -/
theorem allowlist_only_name_rejected_cex :
    (∀ c ∈ ("_" : String).data, (c.isAlphanum || c == '_' || c == '-') = true) ∧
    validTableName "_" = false ∧
    get_table_data probeStore false "_" 100 = (false, Except.error "Invalid table name") :=
  ⟨by decide, by decide, rfl⟩

/-- C3 (amended): for ASCII table names (the domain on which this
embedding of Python's Unicode-aware `isalnum` is exact), the
identifier check accepts a name iff every character is an ASCII
letter, digit, underscore, or hyphen AND at least one character is a
letter or digit; any name failing the check is rejected as an invalid
table name before any SQL is built, with state unchanged and
independently of the storage engine. -/
theorem get_table_data_identifier_check {σ : Type} (st : Store σ) (s : σ) (limit : Int)
    (t : String) (hascii : ∀ c ∈ t.data, c.toNat < 128) :
    (validTableName t = true ↔
      ((∀ c ∈ t.data, (c.isAlphanum || c == '_' || c == '-') = true) ∧
        ∃ c ∈ t.data, c.isAlphanum = true)) ∧
    (validTableName t = false →
      get_table_data st s t limit = (s, Except.error "Invalid table name")) := by
  constructor
  · exact filter_allowlist_key t.data
  · intro hv
    unfold get_table_data
    rw [hv]
    rfl

/-- Witness for C3's amended theorem: the claim's four examples behave
as stated, and the theorem applies at the concrete rejected name
`../etc` on a concrete store. -/
theorem get_table_data_identifier_check_witness :
    validTableName "users" = true ∧
    validTableName "my-table_1" = true ∧
    validTableName "users; DROP TABLE x" = false ∧
    validTableName "../etc" = false ∧
    get_table_data unitStore () "../etc" 100 = ((), Except.error "Invalid table name") :=
  ⟨by decide, by decide, by decide, by decide,
   (get_table_data_identifier_check unitStore () 100 "../etc" (by decide)).2 (by decide)⟩

/-- C1: a query whose trimmed, case-folded working copy is
SELECT-prefixed and contains some forbidden substring is rejected by
`execute_query` with the state unchanged, naming the first matching
pattern: the named pattern occurs in the working copy and every
pattern listed before it does not. -/
theorem execute_query_rejects_forbidden_first {σ : Type} (st : Store σ) (s : σ)
    (q : String) (ps : Option (List Int))
    (h1 : pyStartsWith (query_stripped q) "SELECT" = true)
    (h2 : dangerous_patterns.any (fun p => containsSubstr (query_stripped q) p) = true) :
    ∃ p pre suf, dangerous_patterns = pre ++ p :: suf ∧
      containsSubstr (query_stripped q) p = true ∧
      (∀ x ∈ pre, containsSubstr (query_stripped q) x = false) ∧
      execute_query st s q ps =
        (s, Except.error ("Query contains dangerous pattern: " ++ p)) := by
  obtain ⟨p, hp⟩ := any_find?_some _ _ h2
  obtain ⟨pre, suf, hl, hpre, hpa⟩ := find?_some_split _ _ _ hp
  refine ⟨p, pre, suf, hl, hpa, hpre, ?_⟩
  have hclass : classify q =
      Classification.rejected ("Query contains dangerous pattern: " ++ p) := by
    unfold classify
    rw [h1, hp]
    rfl
  unfold execute_query
  rw [hclass]

/-- Witness for C1 at the query `SELECT 1; DROP TABLE t` on a concrete
store. -/
theorem execute_query_rejects_forbidden_first_witness :
    pyStartsWith (query_stripped "SELECT 1; DROP TABLE t") "SELECT" = true ∧
    dangerous_patterns.any
      (fun p => containsSubstr (query_stripped "SELECT 1; DROP TABLE t") p) = true ∧
    (∃ p pre suf, dangerous_patterns = pre ++ p :: suf ∧
      containsSubstr (query_stripped "SELECT 1; DROP TABLE t") p = true ∧
      (∀ x ∈ pre, containsSubstr (query_stripped "SELECT 1; DROP TABLE t") x = false) ∧
      execute_query unitStore () "SELECT 1; DROP TABLE t" none =
        ((), Except.error ("Query contains dangerous pattern: " ++ p))) :=
  ⟨by decide, by decide,
   execute_query_rejects_forbidden_first unitStore () "SELECT 1; DROP TABLE t" none
     (by decide) (by decide)⟩

/-- C9: (a) every query the guard classifies SAFE — the only queries
`execute_query` lets reach storage — is SELECT-prefixed and free of
all forbidden substrings in its case-folded working copy; and (b) for
any table name the identifier whitelist accepts whose uppercased form
contains a forbidden word as a substring, `get_table_data`
nevertheless fails: the fixed-shape query it builds is rejected by the
guard naming some forbidden pattern, with state unchanged. -/
theorem guard_invariant_blocks_table_words {σ : Type} (st : Store σ) (s : σ)
    (q name : String) (limit : Int)
    (hsafe : classify q = Classification.safe)
    (hvalid : validTableName name = true)
    (hword : dangerous_patterns.any (fun p => containsSubstr (pyUpper name) p) = true) :
    (pyStartsWith (query_stripped q) "SELECT" = true ∧
      ∀ p ∈ dangerous_patterns, containsSubstr (query_stripped q) p = false) ∧
    (∃ p, p ∈ dangerous_patterns ∧
      get_table_data st s name limit =
        (s, Except.error ("Query contains dangerous pattern: " ++ p))) := by
  constructor
  · cases hb : pyStartsWith (query_stripped q) "SELECT" with
    | false =>
      exfalso
      unfold classify at hsafe
      rw [hb] at hsafe
      exact Classification.noConfusion
        (show Classification.rejected "Only SELECT queries are allowed for safety" =
          Classification.safe from hsafe)
    | true =>
      refine ⟨rfl, ?_⟩
      unfold classify at hsafe
      rw [hb] at hsafe
      cases hf : dangerous_patterns.find? (fun p => containsSubstr (query_stripped q) p) with
      | some p =>
        rw [hf] at hsafe
        exact absurd
          (show Classification.rejected ("Query contains dangerous pattern: " ++ p) =
            Classification.safe from hsafe) (by simp)
      | none =>
        intro p hmem
        have hnp := List.find?_eq_none.mp hf p hmem
        cases hcp : containsSubstr (query_stripped q) p with
        | false => rfl
        | true => exact absurd hcp hnp
  · obtain ⟨l⟩ := name
    have hstrip : pyStrip ("SELECT * FROM " ++ String.mk l ++ " LIMIT ?") =
        "SELECT * FROM " ++ String.mk l ++ " LIMIT ?" := by
      apply pyStrip_eq_self
      · intro c hc
        have hh : ("SELECT * FROM " ++ String.mk l ++ " LIMIT ?").data.head? = some 'S' := rfl
        rw [hh, Option.mem_def] at hc
        injection hc with hc2
        rw [← hc2]
        decide
      · intro c hc
        have hd : ("SELECT * FROM " ++ String.mk l ++ " LIMIT ?").data =
            ("SELECT * FROM ").data ++ l ++ (" LIMIT ?").data := rfl
        rw [hd, List.reverse_append, List.head?_append] at hc
        have hq : ((" LIMIT ?").data.reverse.head?).or
            ((("SELECT * FROM ").data ++ l).reverse.head?) = some '?' := rfl
        rw [hq, Option.mem_def] at hc
        injection hc with hc2
        rw [← hc2]
        decide
    have hQS : query_stripped ("SELECT * FROM " ++ String.mk l ++ " LIMIT ?") =
        pyUpper ("SELECT * FROM " ++ String.mk l ++ " LIMIT ?") := by
      unfold query_stripped
      rw [hstrip]
    rw [List.any_eq_true] at hword
    obtain ⟨p0, hmem0, hcont0⟩ := hword
    have hcontB : containsSubstr
        (pyUpper ("SELECT * FROM " ++ String.mk l ++ " LIMIT ?")) p0 = true := by
      show containsSub
        ((("SELECT * FROM ").data ++ l ++ (" LIMIT ?").data).map Char.toUpper) p0.data = true
      rw [List.map_append, List.map_append]
      exact containsSub_mid _ _ _ _ hcont0
    have hany : dangerous_patterns.any (fun p =>
        containsSubstr (query_stripped ("SELECT * FROM " ++ String.mk l ++ " LIMIT ?")) p)
        = true := by
      rw [List.any_eq_true]
      exact ⟨p0, hmem0, by rw [hQS]; exact hcontB⟩
    obtain ⟨p2, hfind⟩ := any_find?_some _ _ hany
    have hmem2 : p2 ∈ dangerous_patterns := List.mem_of_find?_eq_some hfind
    have hpre2 : pyStartsWith
        (query_stripped ("SELECT * FROM " ++ String.mk l ++ " LIMIT ?")) "SELECT" = true := by
      rw [hQS]
      rfl
    have hclass : classify ("SELECT * FROM " ++ String.mk l ++ " LIMIT ?") =
        Classification.rejected ("Query contains dangerous pattern: " ++ p2) := by
      unfold classify
      rw [hpre2, hfind]
      rfl
    refine ⟨p2, hmem2, ?_⟩
    have hexec : execute_query st s ("SELECT * FROM " ++ String.mk l ++ " LIMIT ?")
        (some [limit]) = (s, Except.error ("Query contains dangerous pattern: " ++ p2)) := by
      unfold execute_query
      rw [hclass]
    unfold get_table_data
    rw [hvalid]
    exact hexec

/-- Witness for C9 at the SAFE query `SELECT * FROM users` and the
whitelist-valid table name `updates`, whose uppercase form contains
the forbidden word UPDATE, on a concrete store. -/
theorem guard_invariant_blocks_table_words_witness :
    classify "SELECT * FROM users" = Classification.safe ∧
    validTableName "updates" = true ∧
    dangerous_patterns.any (fun p => containsSubstr (pyUpper "updates") p) = true ∧
    ((pyStartsWith (query_stripped "SELECT * FROM users") "SELECT" = true ∧
      ∀ p ∈ dangerous_patterns,
        containsSubstr (query_stripped "SELECT * FROM users") p = false) ∧
    (∃ p, p ∈ dangerous_patterns ∧
      get_table_data unitStore () "updates" 50 =
        ((), Except.error ("Query contains dangerous pattern: " ++ p)))) :=
  ⟨by decide, by decide, by decide,
   guard_invariant_blocks_table_words unitStore () "SELECT * FROM users" "updates" 50
     (by decide) (by decide) (by decide)⟩

end SqliteMcp
